import Mathlib

/-
Verification of the Phantom remote-browser server (src/server.js).

The JavaScript source is shallowly embedded: each regular expression of
`sanitizeHTML` is translated into a deterministic scanner over `List Char`
(the four patterns involved admit no backtracking, so each one is a
left-to-right scanner that either matches a span of known length at the
current position or advances one character, exactly like the JS global
`String.replace` loop); the socket handlers become pure functions from a
server state to a new state plus the list of emitted events; the browser
pool's event-loop interleavings are modelled by splitting each async
function at its `await` points.
-/

set_option maxRecDepth 100000

namespace Phantom

/-! ## Character classes (JS `\w`, `\s`, quotes) -/

/-- JS regex `\w`: ASCII letters, digits, underscore. -/
def isWordChar (c : Char) : Bool := c.isAlphanum || c == '_'

/-- JS regex `\s` and `String.prototype.trim` whitespace set. -/
def isJsSpace (c : Char) : Bool :=
  c.toNat == 9 || c.toNat == 10 || c.toNat == 11 || c.toNat == 12 ||
  c.toNat == 13 || c.toNat == 32 || c.toNat == 160 || c.toNat == 0x1680 ||
  (0x2000 ≤ c.toNat && c.toNat ≤ 0x200A) || c.toNat == 0x2028 ||
  c.toNat == 0x2029 || c.toNat == 0x202F || c.toNat == 0x205F ||
  c.toNat == 0x3000 || c.toNat == 0xFEFF

/-- A single or double quote (the character class of the quoted
event-handler regex). 39 is the code point of the single quote. -/
def isQuote (c : Char) : Bool := c == '"' || c.toNat == 39

/-- Case-insensitive character comparison (the `i` regex flag). -/
def chEqCI (a b : Char) : Bool := a.toLower == b.toLower

/-! ## List-of-characters primitives -/

/-- Does `l` start with `pat`, case-insensitively? -/
def startsCI : List Char → List Char → Bool
  | [], _ => true
  | _ :: _, [] => false
  | p :: ps, c :: cs => chEqCI p c && startsCI ps cs

/-- Does `l` start with `pat` (case-sensitive)? -/
def startsWithL : List Char → List Char → Bool
  | [], _ => true
  | _ :: _, [] => false
  | p :: ps, c :: cs => p == c && startsWithL ps cs

/-- Index of the first case-insensitive occurrence of `pat` in `l`. -/
def findCI (pat : List Char) : List Char → Option Nat
  | [] => if startsCI pat [] then some 0 else none
  | c :: cs => if startsCI pat (c :: cs) then some 0 else (findCI pat cs).map (· + 1)

/-- Index of the first case-sensitive occurrence of `pat` in `l`. -/
def findSub (pat : List Char) : List Char → Option Nat
  | [] => if startsWithL pat [] then some 0 else none
  | c :: cs => if startsWithL pat (c :: cs) then some 0 else (findSub pat cs).map (· + 1)

/-- Case-sensitive substring test (JS `String.prototype.includes`). -/
def hasSub (pat l : List Char) : Bool := (findSub pat l).isSome

/-- Length of the longest prefix of `l` whose characters satisfy `p`
(the greedy `X*` of a regex over a character class). -/
def takeWhileLen (p : Char → Bool) : List Char → Nat
  | [] => 0
  | c :: cs => if p c then takeWhileLen p cs + 1 else 0

/-- Number of positions of `l` where `pat` starts (case-sensitive). -/
def countSub (pat : List Char) : List Char → Nat
  | [] => 0
  | c :: cs => (if startsWithL pat (c :: cs) then 1 else 0) + countSub pat cs

/-! ## The four patterns of `sanitizeHTML` (src/server.js lines 192-201)

Each matcher reports the length of the match starting at the head of the
list, or `none`.  All four regexes are backtracking-free on inspection:
after a maximal `\w+`/`\s*`/`[^"']*`/`[^\s>]*` run the following mandatory
character is outside the preceding class, so the greedy scan is the only
possible parse. -/

/-- The characters of the opening tag prefix `<script`. -/
def scriptOpen : List Char := ['<', 's', 'c', 'r', 'i', 'p', 't']

/-- The characters of the closing tag `</script>`. -/
def scriptClose : List Char := ['<', '/', 's', 'c', 'r', 'i', 'p', 't', '>']

/-- The `\b` after `<script`: the next character (if any) is a non-word
character. `rest` is the text following the `<script` prefix. -/
def scriptBoundaryOk (rest : List Char) : Bool :=
  match rest with
  | [] => true
  | c :: _ => !(isWordChar c)

/-- Matcher for `/<script\b[^<]*(?:(?!<\/script>)<[^<]*)*<\/script>/gi`:
a `<script` with a word boundary, everything up to and including the
first subsequent `</script>` (the starred group consumes every `<` that
does not begin `</script>`, so the match necessarily ends at the first
closing tag). -/
def scriptMatchLen (l : List Char) : Option Nat :=
  if startsCI scriptOpen l && scriptBoundaryOk (l.drop 7) then
    match findCI scriptClose (l.drop 7) with
    | some q => some (7 + q + 9)
    | none => none
  else none

/-- Matcher for `/on\w+\s*=\s*["'][^"']*["']/gi`. -/
def onQuotedMatchLen (l : List Char) : Option Nat :=
  match l with
  | o :: n :: rest =>
    if chEqCI o 'o' && chEqCI n 'n' then
      let w := takeWhileLen isWordChar rest
      if w == 0 then none else
      let r1 := rest.drop w
      let s1 := takeWhileLen isJsSpace r1
      match r1.drop s1 with
      | '=' :: r3 =>
        let s2 := takeWhileLen isJsSpace r3
        match r3.drop s2 with
        | q :: r5 =>
          if isQuote q then
            let v := takeWhileLen (fun c => !(isQuote c)) r5
            match r5.drop v with
            | q2 :: _ => if isQuote q2 then some (2 + w + s1 + 1 + s2 + 1 + v + 1) else none
            | [] => none
          else none
        | [] => none
      | _ => none
    else none
  | _ => none

/-- Matcher for `/on\w+\s*=\s*[^\s>]*/gi`. -/
def onBareMatchLen (l : List Char) : Option Nat :=
  match l with
  | o :: n :: rest =>
    if chEqCI o 'o' && chEqCI n 'n' then
      let w := takeWhileLen isWordChar rest
      if w == 0 then none else
      let r1 := rest.drop w
      let s1 := takeWhileLen isJsSpace r1
      match r1.drop s1 with
      | '=' :: r3 =>
        let s2 := takeWhileLen isJsSpace r3
        let v := takeWhileLen (fun c => !(isJsSpace c) && c != '>') (r3.drop s2)
        some (2 + w + s1 + 1 + s2 + v)
      | _ => none
    else none
  | _ => none

/-- Matcher for `/javascript:/gi`. -/
def jsUriMatchLen (l : List Char) : Option Nat :=
  if startsCI ['j','a','v','a','s','c','r','i','p','t',':'] l then some 11 else none

/-- One global-replace-by-empty pass: at each position, delete a match and
resume after it, or keep the character and advance — the behaviour of JS
`String.replace` with a `g` flag and an empty replacement.  `fuel` bounds
the recursion; every step consumes at least one character, so `l.length`
fuel always suffices (the `Nat.max k 1` only guards the bound: every
matcher above returns a positive length). -/
def stripWithF (m : List Char → Option Nat) : Nat → List Char → List Char
  | _, [] => []
  | 0, l => l
  | fuel + 1, c :: cs =>
    match m (c :: cs) with
    | some k => stripWithF m fuel (List.drop (Nat.max k 1) (c :: cs))
    | none => c :: stripWithF m fuel cs

/-- Global replacement of every match of `m` by the empty string. -/
def stripWith (m : List Char → Option Nat) (l : List Char) : List Char :=
  stripWithF m l.length l

/-- `sanitizeHTML` (src/server.js lines 192-201): the four replacements,
applied in source order. -/
def sanitizeHTMLL (l : List Char) : List Char :=
  stripWith jsUriMatchLen
    (stripWith onBareMatchLen
      (stripWith onQuotedMatchLen
        (stripWith scriptMatchLen l)))

/-- String-level `sanitizeHTML`. -/
def sanitizeHTML (s : String) : String := ⟨sanitizeHTMLL s.data⟩

/-- Does any suffix of `l` begin with a match of `m`? (I.e. would the
corresponding global replace change anything?) -/
def hasMatch (m : List Char → Option Nat) : List Char → Bool
  | [] => (m []).isSome
  | c :: cs => (m (c :: cs)).isSome || hasMatch m cs

/-! ## URL normalization of the `navigate` handler (lines 319-333) -/

/-- JS `String.prototype.trim`. -/
def jsTrimL (l : List Char) : List Char :=
  ((l.dropWhile isJsSpace).reverse.dropWhile isJsSpace).reverse

/-- String-level trim. -/
def jsTrim (s : String) : String := ⟨jsTrimL s.data⟩

/-- Is `c` left unescaped by JS `encodeURIComponent`? Alphanumerics and
`- _ . ! ~ * ' ( )` (39 is the single quote). -/
def isUriUnreserved (c : Char) : Bool :=
  c.isAlphanum || c == '-' || c == '_' || c == '.' || c == '!' ||
  c == '~' || c == '*' || c.toNat == 39 || c == '(' || c == ')'

/-- UTF-8 bytes of a character. -/
def utf8Bytes (c : Char) : List Nat :=
  let n := c.toNat
  if n < 0x80 then [n]
  else if n < 0x800 then [0xC0 + n / 0x40, 0x80 + n % 0x40]
  else if n < 0x10000 then
    [0xE0 + n / 0x1000, 0x80 + (n / 0x40) % 0x40, 0x80 + n % 0x40]
  else
    [0xF0 + n / 0x40000, 0x80 + (n / 0x1000) % 0x40,
     0x80 + (n / 0x40) % 0x40, 0x80 + n % 0x40]

/-- Upper-case hexadecimal digit for `n < 16`. -/
def hexDigit (n : Nat) : Char :=
  if n < 10 then Char.ofNat (48 + n) else Char.ofNat (65 + n - 10)

/-- Percent-encoding of one byte. -/
def pctByte (b : Nat) : List Char := ['%', hexDigit (b / 16), hexDigit (b % 16)]

/-- JS `encodeURIComponent` over a character list. -/
def encodeURIComponentL : List Char → List Char
  | [] => []
  | c :: cs =>
    (if isUriUnreserved c then [c] else ((utf8Bytes c).map pctByte).flatten) ++
      encodeURIComponentL cs

/-- Does the list contain the character `ch`? -/
def containsCharL (ch : Char) (l : List Char) : Bool := l.any (· == ch)

/-- The Google-search rewrite of line 329. -/
def googleQueryL (t : List Char) : List Char :=
  "https://www.google.com/search?q=".data ++ encodeURIComponentL t

/-- URL normalization of the `navigate` handler (lines 323-333): trim;
keep a `http://`/`https://` URL as-is; rewrite a string containing a
space or no dot into a Google search; otherwise prefix `https://`. -/
def normalizeUrlL (u : List Char) : List Char :=
  let t := jsTrimL u
  if startsWithL "http://".data t || startsWithL "https://".data t then t
  else if containsCharL ' ' t || !(containsCharL '.' t) then googleQueryL t
  else "https://".data ++ t

/-- String-level URL normalization. -/
def normalizeUrl (s : String) : String := ⟨normalizeUrlL s.data⟩

/-- Spec-side definition, written from the spec words "if it already has a
scheme, use as-is": a string has a scheme when it begins with a scheme
name followed by a colon (RFC 3986: a letter, then letters, digits, `+`,
`-` or `.`, then `:`).  Used only to state the refinement gap of claim C6. -/
def isSchemeChar (c : Char) : Bool := c.isAlphanum || c == '+' || c == '-' || c == '.'

/-- Helper for `specHasScheme`: scheme characters then a colon. -/
def schemeColonRun : List Char → Bool
  | [] => false
  | c :: cs => c == ':' || (isSchemeChar c && schemeColonRun cs)

/-- Spec-side "already has a scheme" (see `isSchemeChar`). -/
def specHasScheme (s : String) : Bool :=
  match s.data with
  | [] => false
  | c :: cs => c.isAlpha && schemeColonRun cs

/-- Spec-side "contains whitespace" (the spec's normalization clause). -/
def specContainsWhitespace (s : String) : Bool := s.data.any isJsSpace

/-! ## Base-tag injection (lines 359-362, 425-428, 478-481)

`sanitized.replace(/<head>/i, '<head><base href="' + url + '">')`: a
non-global replace of the first case-insensitive occurrence of the
literal `<head>`.  JS `String.replace` with a string replacement runs
the replacement through GetSubstitution: `$$` yields `$`, `$&` the
matched text, a dollar-backquote the part of the subject before the
match, `$'` (dollar-quote) the part after it; `$` followed by anything
else stays literal (the regex has no capture groups, so `$1`, `$<x>`
etc. are not substituted).  The interpolated URL is part of the
replacement string, so dollar patterns inside it are expanded too. -/

/-- The raw replacement string `<head><base href="url">` handed to
`replace` (before GetSubstitution expansion). -/
def baseTagFor (url : List Char) : List Char :=
  "<head><base href=\"".data ++ url ++ "\">".data

/-- GetSubstitution for a group-less regex: expand the dollar patterns
of the replacement string `repl` against the match context — `before`
the subject before the match, `matched` the matched text, `after` the
subject after the match.  Code points: 36 `$`, 38 `&`, 96 backquote,
39 quote. -/
def expandRepl (before matched after : List Char) : List Char → List Char
  | [] => []
  | c :: rest =>
    if c.toNat == 36 then
      match rest with
      | [] => [c]
      | d :: rest2 =>
        if d.toNat == 36 then c :: expandRepl before matched after rest2
        else if d.toNat == 38 then matched ++ expandRepl before matched after rest2
        else if d.toNat == 96 then before ++ expandRepl before matched after rest2
        else if d.toNat == 39 then after ++ expandRepl before matched after rest2
        else c :: d :: expandRepl before matched after rest2
    else c :: expandRepl before matched after rest

/-- Replacement of the first case-insensitive `<head>` by the expanded
replacement string; a subject without `<head>` is returned unchanged. -/
def injectBaseL (html url : List Char) : List Char :=
  match findCI "<head>".data html with
  | none => html
  | some i =>
    html.take i ++
      expandRepl (html.take i) ((html.drop i).take 6) (html.drop (i + 6))
        (baseTagFor url) ++
      html.drop (i + 6)

/-- String-level base-tag injection. -/
def injectBase (html url : String) : String := ⟨injectBaseL html.data url.data⟩

/-- The needle counted when asking "how many injected base tags". -/
def baseNeedle : List Char := "<base href=".data

/-! ## Navigation-failure classification (lines 372-388) -/

/-- The error message chosen by the `navigate` catch block: `timeout`
substring first, then `net::ERR`, else generic. -/
def navErrorMessage (m : String) : String :=
  if hasSub "timeout".data m.data then
    "Page load timeout - site may be slow or unavailable"
  else if hasSub "net::ERR".data m.data then
    "Network error - check your connection"
  else "Failed to load page"

/-! ## Retry logic (`retryOperation`, lines 133-145)

The operation is a function of the attempt index (`Except` models
throw/return).  The result triple is (returned value if the loop produced
one, number of invocations of the operation, list of backoff delays slept,
in order).  A `none` first component models the JS `undefined` returned
when `retries = 0` makes the loop body never run. -/

/-- The loop of `retryOperation`: `fuel` is the number of remaining
iterations, `i` the current attempt index; `fuel = 0` after a failure
means `i === retries - 1`, where the error is rethrown. -/
def retryGo (op : Nat → Except String Nat) (delay : Nat) :
    Nat → Nat → Option (Except String Nat) × Nat × List Nat
  | i, 0 => (none, i, [])
  | i, fuel + 1 =>
    match op i with
    | .ok v => (some (.ok v), i + 1, [])
    | .error e =>
      if fuel == 0 then (some (.error e), i + 1, [])
      else
        let r := retryGo op delay (i + 1) fuel
        (r.1, r.2.1, delay * 2 ^ i :: r.2.2)

/-- `retryOperation(operation, retries, delay)` (lines 133-145). -/
def retryOperation (op : Nat → Except String Nat) (retries delay : Nat) :
    Option (Except String Nat) × Nat × List Nat :=
  retryGo op delay 0 retries

/-! ## Server state and socket handlers (lines 23-537)

Sessions and timers are association lists keyed by socket id (a `Nat`).
`armed` is the set of live `setTimeout` timers, as (socket id, timer
token) pairs — a token is armed from `setTimeout` until `clearTimeout`
or firing.  `detachLog`/`closeLog` record every CDP detach and page
close actually performed, so "released at most once" is observable.
Browser-dependent effects (page navigation, content capture) enter as
explicit outcome parameters of the handlers; `init` is modelled on its
success path (browser acquired), which is the path all the claims below
exercise. -/

/-- Maximum concurrent sessions (line 26). -/
def MAX_SESSIONS : Nat := 50

/-- One session entry: the ids of its owned page and CDP client, and
whether the page has been closed. -/
structure Session where
  pageId : Nat
  clientId : Nat
  pageClosed : Bool
deriving DecidableEq, Repr

/-- The mutable state of the server process. -/
structure ServerState where
  connected : List Nat
  sessions : List (Nat × Session)
  timers : List (Nat × Nat)
  armed : List (Nat × Nat)
  nextTimer : Nat
  nextPage : Nat
  pagesCreated : Nat
  detachLog : List Nat
  closeLog : List Nat
deriving DecidableEq, Repr

/-- The state at process start. -/
def initState : ServerState :=
  { connected := [], sessions := [], timers := [], armed := [],
    nextTimer := 0, nextPage := 0, pagesCreated := 0,
    detachLog := [], closeLog := [] }

/-- First value bound to key `k` in an association list. -/
def lookupKey {β : Type} (k : Nat) : List (Nat × β) → Option β
  | [] => none
  | (k2, v) :: rest => if k2 == k then some v else lookupKey k rest

/-- Remove every binding of key `k` (JS `Map.delete`; keys are unique in
every reachable state, so this removes at most one binding). -/
def eraseKey {β : Type} (k : Nat) (l : List (Nat × β)) : List (Nat × β) :=
  l.filter (fun p => p.1 != k)

/-- Events emitted to the client (server → client surface of §6). -/
inductive Ev
  | ready
  | loading (status : Bool)
  | pageContent (html url title : String)
  | navigation (url title : String)
  | errorEv (message code : String)
  | pong
deriving DecidableEq, Repr

/-- `resetSessionTimeout` (lines 178-189): clear any existing timer for
the socket, then arm a fresh one and record it in the timer map. -/
def resetSessionTimeout (sid : Nat) (s : ServerState) : ServerState :=
  let armed1 :=
    match lookupKey sid s.timers with
    | some t => s.armed.filter (fun p => p.2 != t)
    | none => s.armed
  { s with
    armed := (sid, s.nextTimer) :: armed1,
    timers := (sid, s.nextTimer) :: eraseKey sid s.timers,
    nextTimer := s.nextTimer + 1 }

/-- `cleanupSession` (lines 148-175): if a session exists, clear its
timer, detach the CDP client, close the page unless already closed, and
delete the registry entry; otherwise do nothing.  The `.catch` guards of
the source make detach/close failures invisible, so the model needs no
failure branch: the resulting state is the same either way. -/
def cleanupSession (sid : Nat) (s : ServerState) : ServerState :=
  match lookupKey sid s.sessions with
  | none => s
  | some sess =>
    { s with
      armed :=
        match lookupKey sid s.timers with
        | some t => s.armed.filter (fun p => p.2 != t)
        | none => s.armed,
      timers :=
        match lookupKey sid s.timers with
        | some _ => eraseKey sid s.timers
        | none => s.timers,
      sessions := eraseKey sid s.sessions,
      detachLog := sess.clientId :: s.detachLog,
      closeLog := if sess.pageClosed then s.closeLog else sess.pageId :: s.closeLog }

/-- The connection gate (lines 204-215): at capacity the socket gets a
`MAX_SESSIONS_REACHED` error and is disconnected before any handler is
registered; otherwise it joins `connected`. -/
def onConnection (sid : Nat) (s : ServerState) : ServerState × List Ev :=
  if s.sessions.length ≥ MAX_SESSIONS then
    (s, [Ev.errorEv "Server at capacity. Please try again later." "MAX_SESSIONS_REACHED"])
  else ({ s with connected := sid :: s.connected }, [])

/-- The `init` handler (lines 218-304), success path: allocate a page and
CDP client, store the session, arm the timer, emit `ready`.  Only sockets
that passed the connection gate have handlers. -/
def onInit (sid : Nat) (s : ServerState) : ServerState × List Ev :=
  if s.connected.contains sid then
    let sess : Session :=
      { pageId := s.nextPage, clientId := s.nextPage, pageClosed := false }
    let s1 :=
      { s with sessions := (sid, sess) :: eraseKey sid s.sessions,
               nextPage := s.nextPage + 1,
               pagesCreated := s.pagesCreated + 1 }
    (resetSessionTimeout sid s1, [Ev.ready])
  else (s, [])

/-- Outcome of the retried `page.goto` plus content capture: on success,
the raw html (`page.content()`, or its fallback string), title, and final
URL; on failure, the error message. -/
inductive NavOutcome
  | success (html title url : String)
  | failure (msg : String)
deriving DecidableEq, Repr

/-- The emitted `page-content` event: sanitized html with the base tag
injected against the final URL (lines 356-368). -/
def emitSnapshot (html url title : String) : Ev :=
  Ev.pageContent (injectBase (sanitizeHTML html) url) url title

/-- The `navigate` handler (lines 307-389).  `url = none` models a
missing or non-string payload; the empty string is falsy in JS, so it
also fails validation.  Validation failure throws before `loading:true`,
landing in the same catch block as a navigation failure. -/
def handleNavigate (sid : Nat) (url : Option String) (out : NavOutcome)
    (s : ServerState) : ServerState × List Ev :=
  match lookupKey sid s.sessions with
  | none => (s, [Ev.errorEv "No active session" "NO_SESSION"])
  | some _ =>
    let s1 := resetSessionTimeout sid s
    match url with
    | none =>
      (s1, [Ev.errorEv (navErrorMessage "Invalid URL provided") "NAVIGATION_ERROR",
            Ev.loading false])
    | some u =>
      if u = "" then
        (s1, [Ev.errorEv (navErrorMessage "Invalid URL provided") "NAVIGATION_ERROR",
              Ev.loading false])
      else
        match out with
        | .success h t finalUrl =>
          (s1, [Ev.loading true, emitSnapshot h finalUrl t, Ev.loading false])
        | .failure m =>
          (s1, [Ev.loading true,
                Ev.errorEv (navErrorMessage m) "NAVIGATION_ERROR",
                Ev.loading false])

/-- Outcome of a history/reload operation for `browser-action`. -/
inductive BAOutcome
  | success (html title url : String)
  | failure
deriving DecidableEq, Repr

/-- Is the action one of `back`/`forward`/`refresh` (line 402-413)? -/
def validAction (a : String) : Bool :=
  a == "back" || a == "forward" || a == "refresh"

/-- The `browser-action` handler (lines 392-446): silent without a
session; otherwise reset the timer, emit `loading:true`, then either a
snapshot or an `ACTION_ERROR` (an invalid action value throws into the
same catch block), then `loading:false`. -/
def handleBrowserAction (sid : Nat) (action : String) (out : BAOutcome)
    (s : ServerState) : ServerState × List Ev :=
  match lookupKey sid s.sessions with
  | none => (s, [])
  | some _ =>
    let s1 := resetSessionTimeout sid s
    if validAction action then
      match out with
      | .success h t u =>
        (s1, [Ev.loading true, emitSnapshot h u t, Ev.loading false])
      | .failure =>
        (s1, [Ev.loading true,
              Ev.errorEv ("Failed to " ++ action) "ACTION_ERROR",
              Ev.loading false])
    else
      (s1, [Ev.loading true,
            Ev.errorEv ("Failed to " ++ action) "ACTION_ERROR",
            Ev.loading false])

/-- Outcome of a click: the post-click snapshot data, or a failure that
the handler only logs. -/
inductive ClickOutcome
  | success (html url title : String)
  | failure
deriving DecidableEq, Repr

/-- The `click` handler (lines 449-492): silent without a session;
otherwise reset the timer and emit a snapshot; errors are logged only. -/
def handleClick (sid : Nat) (out : ClickOutcome) (s : ServerState) :
    ServerState × List Ev :=
  match lookupKey sid s.sessions with
  | none => (s, [])
  | some _ =>
    let s1 := resetSessionTimeout sid s
    match out with
    | .success h u t => (s1, [emitSnapshot h u t])
    | .failure => (s1, [])

/-- The `scroll` handler (lines 495-507): fire-and-forget; no timer
reset, no events. -/
def handleScroll (sid : Nat) (s : ServerState) : ServerState × List Ev :=
  match lookupKey sid s.sessions with
  | none => (s, [])
  | some _ => (s, [])

/-- The `input` handler (lines 510-524): silent without a session;
**with** a session it calls `resetSessionTimeout` (line 515) and emits
nothing. -/
def handleInput (sid : Nat) (s : ServerState) : ServerState × List Ev :=
  match lookupKey sid s.sessions with
  | none => (s, [])
  | some _ => (resetSessionTimeout sid s, [])

/-- The `ping` keep-alive handler (lines 527-530): resets the timer
(unconditionally — there is no session check) and replies `pong`. -/
def handlePing (sid : Nat) (s : ServerState) : ServerState × List Ev :=
  (resetSessionTimeout sid s, [Ev.pong])

/-- The `disconnect` handler (lines 533-536) plus the transport removing
the socket. -/
def handleDisconnect (sid : Nat) (s : ServerState) : ServerState × List Ev :=
  let s1 := cleanupSession sid s
  ({ s1 with connected := s1.connected.filter (fun x => x != sid) }, [])

/-- An armed eviction timer firing: it is consumed and runs
`cleanupSession` for its socket.  Only an armed timer can fire. -/
def fireTimer (sid t : Nat) (s : ServerState) : ServerState :=
  if s.armed.contains (sid, t) then
    cleanupSession sid { s with armed := s.armed.filter (fun p => p != (sid, t)) }
  else s

/-- The inbound events of the system, with browser outcomes inlined. -/
inductive Cmd
  | connection (sid : Nat)
  | init (sid : Nat)
  | navigate (sid : Nat) (url : Option String) (out : NavOutcome)
  | browserAction (sid : Nat) (action : String) (out : BAOutcome)
  | click (sid : Nat) (out : ClickOutcome)
  | scroll (sid : Nat)
  | input (sid : Nat)
  | ping (sid : Nat)
  | disconnect (sid : Nat)
  | timerFire (sid t : Nat)

/-- Dispatch one inbound event. -/
def applyCmd (c : Cmd) (s : ServerState) : ServerState × List Ev :=
  match c with
  | .connection sid => onConnection sid s
  | .init sid => onInit sid s
  | .navigate sid url out => handleNavigate sid url out s
  | .browserAction sid a out => handleBrowserAction sid a out s
  | .click sid out => handleClick sid out s
  | .scroll sid => handleScroll sid s
  | .input sid => handleInput sid s
  | .ping sid => handlePing sid s
  | .disconnect sid => handleDisconnect sid s
  | .timerFire sid t => (fireTimer sid t s, [])

/-- Run a sequence of inbound events from a state. -/
def runCmds (cmds : List Cmd) (s : ServerState) : ServerState :=
  cmds.foldl (fun st c => (applyCmd c st).1) s

/-- Number of armed eviction timers belonging to socket `sid`. -/
def armedFor (sid : Nat) (s : ServerState) : Nat :=
  (s.armed.filter (fun p => p.1 == sid)).length

/-! ## Browser pool (lines 34-35, 51-130)

The pool's state is the `browserInstance` variable (`none`, or
`some isConnected`), the `browserRestartInProgress` flag, and counters of
launches performed and restart bodies entered.  `getBrowser` and
`restartBrowser` are `async`; the single-threaded event loop runs each of
them atomically up to its next `await`, so they are split at those
points: `gbCheck` is `getBrowser` up to the `await puppeteer.launch`
(the check of line 53), `gbFinish` is the resumption after the launch
promise resolves (the assignment to `browserInstance`), and `rbEnter` is
the synchronous guard prefix of `restartBrowser` (lines 110-112). -/

/-- The pool's mutable state. -/
structure Pool where
  browser : Option Bool
  restartInProgress : Bool
  launches : Nat
  restartRuns : Nat
deriving DecidableEq, Repr

/-- `getBrowser` up to its `await`: with a connected instance, return it
(no launch); otherwise this call will launch (line 53-56).  The returned
flag records whether a launch was started. -/
def gbCheck (p : Pool) : Pool × Bool :=
  match p.browser with
  | some true => (p, false)
  | _ => (p, true)

/-- Resumption of a `getBrowser` whose launch promise resolved: the new
connected instance is stored (line 56). -/
def gbFinish (p : Pool) : Pool :=
  { p with browser := some true, launches := p.launches + 1 }

/-- The guard prefix of `restartBrowser` (lines 110-112): return at once
when a restart is already in progress, else raise the flag and enter the
body.  The flag records whether the body was entered. -/
def rbEnter (p : Pool) : Pool × Bool :=
  if p.restartInProgress then (p, false)
  else ({ p with restartInProgress := true, restartRuns := p.restartRuns + 1 }, true)

/-- End of the restart body (`finally`, line 128). -/
def rbFinish (p : Pool) : Pool := { p with restartInProgress := false }

/-- The `disconnected` listener (lines 92-96): null the handle, then call
`restartBrowser`, whose synchronous prefix runs immediately. -/
def onDisconnected (p : Pool) : Pool × Bool :=
  rbEnter { p with browser := none }

/-- A connected pool that has not (re)launched or restarted yet. -/
def healthyPool : Pool :=
  { browser := some true, restartInProgress := false, launches := 0, restartRuns := 0 }

/-- The pool state right after the disconnect notification was handled. -/
def poolAfterCrash : Pool := (onDisconnected healthyPool).1

/-- Three concurrent `getBrowser` calls against a pool state: each runs
its synchronous check first (all three before any launch resolves — the
interleaving the event loop produces when the calls arrive together,
since the assignment to `browserInstance` happens only after the `await`),
then each pending launch resolves.  This is an admissible schedule of the
single-threaded event loop. -/
def racedAcquires (p0 : Pool) : Pool :=
  let c1 := gbCheck p0
  let c2 := gbCheck c1.1
  let c3 := gbCheck c2.1
  let q1 := if c1.2 then gbFinish c3.1 else c3.1
  let q2 := if c2.2 then gbFinish q1 else q1
  if c3.2 then gbFinish q2 else q2

/-- A state with one initialized session for socket 1 (used to
instantiate the per-session theorems at a concrete reachable state). -/
def sessionState1 : ServerState := runCmds [Cmd.connection 1, Cmd.init 1] initState

/-- 51 sockets connect while the registry is still empty (each passes the
connection-time capacity check), then each of them runs `init`. -/
def overCapacityTrace : List Cmd :=
  ((List.range 51).map Cmd.connection) ++ ((List.range 51).map Cmd.init)

/-- 50 sockets connect and init: a state exactly at capacity. -/
def fullTrace : List Cmd :=
  ((List.range 50).map Cmd.connection) ++ ((List.range 50).map Cmd.init)

/-- The state reached by `fullTrace`. -/
def fullState : ServerState := runCmds fullTrace initState

/-- Number of `error` events carrying the given code. -/
def countErrorsWithCode (code : String) : List Ev → Nat
  | [] => 0
  | Ev.errorEv _ c :: rest => (if c == code then 1 else 0) + countErrorsWithCode code rest
  | _ :: rest => countErrorsWithCode code rest

/-- The raw html the `navigate` handler falls back to when
`page.content()` rejects (line 350). -/
def contentFallback : String := "<html><body>Failed to load content</body></html>"

/-! ## Association-list lemmas -/

theorem mem_of_lookupKey {β : Type} {k : Nat} {v : β} :
    ∀ {l : List (Nat × β)}, lookupKey k l = some v → (k, v) ∈ l := by
  intro l
  induction l with
  | nil => intro h; simp [lookupKey] at h
  | cons hd tl ih =>
    intro h
    match hd with
    | (k2, w) =>
      by_cases hk : k2 == k
      · simp [lookupKey, hk] at h
        have : k2 = k := by simpa using hk
        subst this; subst h; exact List.mem_cons_self _ _
      · simp [lookupKey, hk] at h
        exact List.mem_cons_of_mem _ (ih h)

theorem lookupKey_ne_none_of_mem {β : Type} {k : Nat} {v : β} :
    ∀ {l : List (Nat × β)}, (k, v) ∈ l → lookupKey k l ≠ none := by
  intro l
  induction l with
  | nil => intro h; simp at h
  | cons hd tl ih =>
    intro h
    match hd with
    | (k2, w) =>
      by_cases hk : k2 == k
      · simp [lookupKey, hk]
      · simp [lookupKey, hk]
        rcases List.mem_cons.mp h with h1 | h1
        · have : k2 = k := by
            have := congrArg Prod.fst h1.symm
            simpa using this
          simp [this] at hk
        · exact ih h1

theorem lookupKey_eq_of_mem_nodup {β : Type} {k : Nat} {v : β} :
    ∀ {l : List (Nat × β)}, (l.map Prod.fst).Nodup → (k, v) ∈ l →
      lookupKey k l = some v := by
  intro l
  induction l with
  | nil => intro _ h; simp at h
  | cons hd tl ih =>
    intro hn h
    match hd with
    | (k2, w) =>
      have hn2 : (tl.map Prod.fst).Nodup := (List.nodup_cons.mp (by simpa using hn)).2
      have hk2 : k2 ∉ tl.map Prod.fst := (List.nodup_cons.mp (by simpa using hn)).1
      by_cases hk : k2 == k
      · have hkk : k2 = k := by simpa using hk
        rcases List.mem_cons.mp h with h1 | h1
        · have hv : w = v := by
            have := congrArg Prod.snd h1.symm
            simpa using this
          simp [lookupKey, hk, hv]
        · exfalso
          apply hk2
          subst hkk
          exact List.mem_map.mpr ⟨(k2, v), h1, rfl⟩
      · rcases List.mem_cons.mp h with h1 | h1
        · have : k2 = k := by
            have := congrArg Prod.fst h1.symm
            simpa using this
          simp [this] at hk
        · simp [lookupKey, hk]
          exact ih hn2 h1

theorem mem_eraseKey {β : Type} {p : Nat × β} {k : Nat} {l : List (Nat × β)} :
    p ∈ eraseKey k l ↔ p ∈ l ∧ p.1 ≠ k := by
  simp [eraseKey, List.mem_filter]

theorem lookupKey_eraseKey_self {β : Type} (k : Nat) (l : List (Nat × β)) :
    lookupKey k (eraseKey k l) = none := by
  induction l with
  | nil => rfl
  | cons hd tl ih =>
    match hd with
    | (k2, w) =>
      by_cases hk : k2 == k
      · have : k2 = k := by simpa using hk
        simp [eraseKey, List.filter, this] at ih ⊢
        simpa [eraseKey] using ih
      · have hne : (k2 != k) = true := by simpa using hk
        simp [eraseKey, List.filter, hne] at ih ⊢
        simpa [lookupKey, hk, eraseKey] using ih

theorem eraseKey_sublist {β : Type} (k : Nat) (l : List (Nat × β)) :
    (eraseKey k l).Sublist l := List.filter_sublist l

theorem eraseKey_keys_nodup {β : Type} {k : Nat} {l : List (Nat × β)}
    (h : (l.map Prod.fst).Nodup) : ((eraseKey k l).map Prod.fst).Nodup :=
  ((eraseKey_sublist k l).map Prod.fst).nodup h

theorem not_mem_eraseKey_keys {β : Type} (k : Nat) (l : List (Nat × β)) :
    k ∉ (eraseKey k l).map Prod.fst := by
  intro h
  rcases List.mem_map.mp h with ⟨p, hp, hfst⟩
  exact absurd hfst (mem_eraseKey.mp hp).2

/-- A duplicate-free list whose elements are pairwise equal has at most
one element. -/
theorem length_le_one_of_nodup_of_all_eq {α : Type} {l : List α}
    (hn : l.Nodup) (he : ∀ a ∈ l, ∀ b ∈ l, a = b) : l.length ≤ 1 := by
  match l with
  | [] => simp
  | [a] => simp
  | a :: b :: t =>
    exfalso
    have hab : a = b := he a (by simp) b (by simp)
    have := (List.nodup_cons.mp hn).1
    exact this (by simp [hab])

/-! ## The single-armed-timer invariant -/

/-- Timer bookkeeping invariant: armed timers are pairwise distinct, every
armed timer is the current map entry of its socket, the timer map has at
most one entry per socket, and every mapped token is below the fresh
counter. -/
def TInv (s : ServerState) : Prop :=
  s.armed.Nodup ∧
  (∀ p ∈ s.armed, p ∈ s.timers) ∧
  (s.timers.map Prod.fst).Nodup ∧
  (∀ p ∈ s.timers, p.2 < s.nextTimer)

theorem TInv_initState : TInv initState := by
  refine ⟨?_, ?_, ?_, ?_⟩ <;> simp [initState]

theorem resetPreserves (sid : Nat) {s : ServerState} (h : TInv s) :
    TInv (resetSessionTimeout sid s) := by
  obtain ⟨hA, hSub, hK, hF⟩ := h
  unfold TInv resetSessionTimeout
  cases hl : lookupKey sid s.timers with
  | some t =>
    simp only [hl]
    refine ⟨?_, ?_, ?_, ?_⟩
    · refine List.nodup_cons.mpr ⟨?_, hA.filter _⟩
      intro hmem
      have h1 : (sid, s.nextTimer) ∈ s.armed := List.mem_of_mem_filter hmem
      have h2 := hF _ (hSub _ h1)
      exact absurd h2 (by simp)
    · intro p hp
      rcases List.mem_cons.mp hp with h1 | h1
      · exact h1 ▸ List.mem_cons_self _ _
      · have hpA : p ∈ s.armed := (List.mem_filter.mp h1).1
        have hpt : (p.2 != t) = true := (List.mem_filter.mp h1).2
        have hpT : p ∈ s.timers := hSub _ hpA
        apply List.mem_cons_of_mem
        apply mem_eraseKey.mpr
        refine ⟨hpT, ?_⟩
        intro hps
        have : lookupKey sid s.timers = some p.2 := by
          apply lookupKey_eq_of_mem_nodup hK
          have : (sid, p.2) = p := by
            cases p; simp_all
          simpa [this]
        rw [hl] at this
        have : p.2 = t := by simpa using this.symm
        simp [this] at hpt
    · simp only [List.map_cons]
      exact List.nodup_cons.mpr ⟨not_mem_eraseKey_keys sid s.timers, eraseKey_keys_nodup hK⟩
    · intro p hp
      rcases List.mem_cons.mp hp with h1 | h1
      · simp [h1]
      · have := hF _ ((mem_eraseKey.mp h1).1)
        omega
  | none =>
    simp only [hl]
    refine ⟨?_, ?_, ?_, ?_⟩
    · refine List.nodup_cons.mpr ⟨?_, hA⟩
      intro hmem
      have h2 := hF _ (hSub _ hmem)
      exact absurd h2 (by simp)
    · intro p hp
      rcases List.mem_cons.mp hp with h1 | h1
      · exact h1 ▸ List.mem_cons_self _ _
      · have hpT : p ∈ s.timers := hSub _ h1
        apply List.mem_cons_of_mem
        apply mem_eraseKey.mpr
        refine ⟨hpT, ?_⟩
        intro hps
        apply lookupKey_ne_none_of_mem (v := p.2) ?_ hl
        have : (sid, p.2) = p := by cases p; simp_all
        simpa [this]
    · simp only [List.map_cons]
      exact List.nodup_cons.mpr ⟨not_mem_eraseKey_keys sid s.timers, eraseKey_keys_nodup hK⟩
    · intro p hp
      rcases List.mem_cons.mp hp with h1 | h1
      · simp [h1]
      · have := hF _ ((mem_eraseKey.mp h1).1)
        omega

theorem cleanupPreserves (sid : Nat) {s : ServerState} (h : TInv s) :
    TInv (cleanupSession sid s) := by
  obtain ⟨hA, hSub, hK, hF⟩ := h
  unfold TInv cleanupSession
  cases hs : lookupKey sid s.sessions with
  | none => exact ⟨hA, hSub, hK, hF⟩
  | some sess =>
    simp only [hs]
    cases hl : lookupKey sid s.timers with
    | some t =>
      simp only [hl]
      refine ⟨hA.filter _, ?_, eraseKey_keys_nodup hK, ?_⟩
      · intro p hp
        have hpA : p ∈ s.armed := (List.mem_filter.mp hp).1
        have hpt : (p.2 != t) = true := (List.mem_filter.mp hp).2
        have hpT : p ∈ s.timers := hSub _ hpA
        apply mem_eraseKey.mpr
        refine ⟨hpT, ?_⟩
        intro hps
        have : lookupKey sid s.timers = some p.2 := by
          apply lookupKey_eq_of_mem_nodup hK
          have : (sid, p.2) = p := by cases p; simp_all
          simpa [this]
        rw [hl] at this
        have : p.2 = t := by simpa using this.symm
        simp [this] at hpt
      · intro p hp
        exact hF _ ((mem_eraseKey.mp hp).1)
    | none =>
      simp only [hl]
      exact ⟨hA, hSub, hK, hF⟩

theorem firePreserves (sid t : Nat) {s : ServerState} (h : TInv s) :
    TInv (fireTimer sid t s) := by
  obtain ⟨hA, hSub, hK, hF⟩ := h
  unfold fireTimer
  by_cases hc : s.armed.contains (sid, t)
  · simp only [hc, if_true]
    apply cleanupPreserves
    refine ⟨hA.filter _, ?_, hK, hF⟩
    intro p hp
    exact hSub _ (List.mem_of_mem_filter hp)
  · simp only [hc, if_false]
    exact ⟨hA, hSub, hK, hF⟩

theorem stepPreserves (c : Cmd) {s : ServerState} (h : TInv s) :
    TInv (applyCmd c s).1 := by
  cases c with
  | connection sid =>
    simp only [applyCmd, onConnection]
    by_cases hc : s.sessions.length ≥ MAX_SESSIONS
    · simp only [hc, if_true]; exact h
    · simp only [hc, if_false]; exact h
  | init sid =>
    simp only [applyCmd, onInit]
    by_cases hc : s.connected.contains sid
    · simp only [hc, if_true]
      exact resetPreserves sid h
    · simp only [hc, if_false]; exact h
  | navigate sid url out =>
    simp only [applyCmd, handleNavigate]
    cases hs : lookupKey sid s.sessions with
    | none => exact h
    | some sess =>
      cases url with
      | none => exact resetPreserves sid h
      | some u =>
        by_cases hu : u = ""
        · simp only [hu, if_pos rfl]
          exact resetPreserves sid h
        · simp only [if_neg hu]
          cases out with
          | success a b c => exact resetPreserves sid h
          | failure m => exact resetPreserves sid h
  | browserAction sid a out =>
    simp only [applyCmd, handleBrowserAction]
    cases hs : lookupKey sid s.sessions with
    | none => exact h
    | some sess =>
      by_cases hv : validAction a
      · simp only [hv, if_true]
        cases out with
        | success x y z => exact resetPreserves sid h
        | failure => exact resetPreserves sid h
      · simp only [hv, Bool.false_eq_true, if_false]
        exact resetPreserves sid h
  | click sid out =>
    simp only [applyCmd, handleClick]
    cases hs : lookupKey sid s.sessions with
    | none => exact h
    | some sess =>
      cases out with
      | success x y z => exact resetPreserves sid h
      | failure => exact resetPreserves sid h
  | scroll sid =>
    simp only [applyCmd, handleScroll]
    cases hs : lookupKey sid s.sessions with
    | none => exact h
    | some sess => exact h
  | input sid =>
    simp only [applyCmd, handleInput]
    cases hs : lookupKey sid s.sessions with
    | none => exact h
    | some sess => exact resetPreserves sid h
  | ping sid =>
    simp only [applyCmd, handlePing]
    exact resetPreserves sid h
  | disconnect sid =>
    simp only [applyCmd, handleDisconnect]
    exact cleanupPreserves sid h
  | timerFire sid t =>
    simp only [applyCmd]
    exact firePreserves sid t h

theorem runPreserves : ∀ (cmds : List Cmd) (s : ServerState), TInv s → TInv (runCmds cmds s) := by
  intro cmds
  induction cmds with
  | nil => intro s h; exact h
  | cons c cs ih =>
    intro s h
    exact ih _ (stepPreserves c h)

/-- In any state satisfying the invariant, each socket has at most one
armed eviction timer. -/
theorem armedFor_le_one {s : ServerState} (h : TInv s) (sid : Nat) :
    armedFor sid s ≤ 1 := by
  obtain ⟨hA, hSub, hK, _⟩ := h
  apply length_le_one_of_nodup_of_all_eq (hA.filter _)
  intro a ha b hb
  have haA : a ∈ s.armed := List.mem_of_mem_filter ha
  have hbA : b ∈ s.armed := List.mem_of_mem_filter hb
  have haS : (a.1 == sid) = true := (List.mem_filter.mp ha).2
  have hbS : (b.1 == sid) = true := (List.mem_filter.mp hb).2
  have ha1 : a.1 = sid := by simpa using haS
  have hb1 : b.1 = sid := by simpa using hbS
  have hla : lookupKey sid s.timers = some a.2 := by
    apply lookupKey_eq_of_mem_nodup hK
    have : (sid, a.2) = a := by cases a; simp_all
    rw [this]; exact hSub _ haA
  have hlb : lookupKey sid s.timers = some b.2 := by
    apply lookupKey_eq_of_mem_nodup hK
    have : (sid, b.2) = b := by cases b; simp_all
    rw [this]; exact hSub _ hbA
  have h2 : a.2 = b.2 := by
    have := hla.symm.trans hlb
    simpa using this
  cases a; cases b; simp_all

/-! ## Generic facts about the global-replace scanner -/

theorem stripWithF_eq_of_no_match (m : List Char → Option Nat) :
    ∀ (fuel : Nat) (l : List Char), hasMatch m l = false → l.length ≤ fuel →
      stripWithF m fuel l = l := by
  intro fuel
  induction fuel with
  | zero =>
    intro l hm hl
    cases l with
    | nil => rfl
    | cons c cs => simp at hl
  | succ fuel ih =>
    intro l hm hl
    cases l with
    | nil => rfl
    | cons c cs =>
      cases hnone : m (c :: cs) with
      | some k => simp [hasMatch, hnone] at hm
      | none =>
        have hm2 : hasMatch m cs = false := by
          simp [hasMatch, hnone] at hm
          exact hm
        simp only [stripWithF, hnone]
        rw [ih cs hm2 (by simpa using Nat.le_of_succ_le_succ hl)]

theorem stripWith_eq_of_no_match (m : List Char → Option Nat) (l : List Char)
    (h : hasMatch m l = false) : stripWith m l = l :=
  stripWithF_eq_of_no_match m l.length l h (Nat.le_refl _)

/-! ## Claim C1 — `sanitizeHTML` -/

/-- C1, counterexample.  The claim says every part of the input that is
not a `<script>…</script>` block, an inline `on*` event-handler
attribute, or a `javascript:` URI survives byte-identically.  The input
`money=5` contains no `<script` at all, no `javascript:`, and not a
single quote character (so it cannot contain a quoted `on*="…"`
event-handler attribute, and being plain text with no tag it has no
attributes at all) — yet `sanitizeHTML` rewrites it to `m`: the unquoted
event-handler regex `on\w+\s*=\s*[^\s>]*` fires on the inner substring
`oney=5`. -/
theorem c1_sanitize_byte_identity_cex :
    sanitizeHTML "money=5" ≠ "money=5" ∧
    sanitizeHTML "money=5" = "m" ∧
    findCI scriptOpen "money=5".data = none ∧
    findCI ['j','a','v','a','s','c','r','i','p','t',':'] "money=5".data = none ∧
    "money=5".data.all (fun c => !(isQuote c)) = true := by
  decide

/-- C1, amended: `sanitize(html)` deletes exactly the spans matched by
its four patterns, scanning left to right: `<script` (with word boundary)
through the first following `</script>`, quoted and unquoted
`on<word>≈=…` sequences — which can fire on plain text that is not an
event-handler attribute, e.g. `money=5` — and `javascript:` substrings;
any input in which none of the four patterns matches anywhere is
returned byte-identical. -/
theorem c1_sanitize_amended :
    (∀ s : String,
        hasMatch scriptMatchLen s.data = false →
        hasMatch onQuotedMatchLen s.data = false →
        hasMatch onBareMatchLen s.data = false →
        hasMatch jsUriMatchLen s.data = false →
        sanitizeHTML s = s) ∧
    sanitizeHTML "<script>alert(1)</script>" = "" ∧
    sanitizeHTML "<div onclick=\"f()\">" = "<div >" ∧
    sanitizeHTML "<p onclick=evil()>" = "<p >" ∧
    sanitizeHTML "<a href=\"javascript:f()\">x</a>" = "<a href=\"f()\">x</a>" ∧
    sanitizeHTML "money=5" = "m" := by
  refine ⟨?_, by decide, by decide, by decide, by decide, by decide⟩
  intro s h1 h2 h3 h4
  unfold sanitizeHTML sanitizeHTMLL
  rw [stripWith_eq_of_no_match _ _ h1, stripWith_eq_of_no_match _ _ h2,
      stripWith_eq_of_no_match _ _ h3, stripWith_eq_of_no_match _ _ h4]

/-- C1, witness: a benign input where no pattern matches is unchanged. -/
theorem c1_sanitize_amended_witness :
    hasMatch scriptMatchLen "hello <b>world</b>".data = false ∧
    sanitizeHTML "hello <b>world</b>" = "hello <b>world</b>" :=
  ⟨by decide,
   c1_sanitize_amended.1 "hello <b>world</b>" (by decide) (by decide) (by decide) (by decide)⟩

/-! ## Claim C5 — `retryOperation` -/

/-- C5: an operation failing twice then succeeding returns the success
value after exactly 2 failed attempts (3 invocations, backoff delays
base×2^0 and base×2^1); an always-failing operation with `retries = 3`
is invoked exactly 3 times, sleeps exactly those two delays, and
re-raises the final (third) error. -/
theorem c5_retry_behavior :
    (∀ (op : Nat → Except String Nat) (e0 e1 : String) (v : Nat),
        op 0 = .error e0 → op 1 = .error e1 → op 2 = .ok v →
        ∀ d : Nat, retryOperation op 3 d = (some (.ok v), 3, [d * 2 ^ 0, d * 2 ^ 1])) ∧
    (∀ (op : Nat → Except String Nat) (errs : Nat → String),
        (∀ i, op i = .error (errs i)) →
        ∀ d : Nat,
          retryOperation op 3 d = (some (.error (errs 2)), 3, [d * 2 ^ 0, d * 2 ^ 1])) := by
  constructor
  · intro op e0 e1 v h0 h1 h2 d
    simp [retryOperation, retryGo, h0, h1, h2]
  · intro op errs h d
    simp [retryOperation, retryGo, h]

/-- C5, witness: concrete fail-fail-succeed and always-fail operations. -/
theorem c5_retry_behavior_witness :
    retryOperation (fun i => if i < 2 then .error "boom" else .ok 7) 3 1000 =
      (some (.ok 7), 3, [1000 * 2 ^ 0, 1000 * 2 ^ 1]) ∧
    retryOperation (fun _ => .error "x") 3 1000 =
      (some (.error "x"), 3, [1000 * 2 ^ 0, 1000 * 2 ^ 1]) :=
  ⟨c5_retry_behavior.1 _ "boom" "boom" 7 rfl rfl rfl 1000,
   c5_retry_behavior.2 _ (fun _ => "x") (fun _ => rfl) 1000⟩

/-! ## Claim C6 — URL normalization of `navigate` -/

/-- C6, counterexample.  The claim says a trimmed input that already has
a scheme is used as-is and that one containing whitespace becomes a
search query.  But the code only recognizes the two prefixes `http://`
and `https://`, so `ftp://x.y` (which has a scheme) is rewritten to
`https://ftp://x.y`; and it only tests for the space character, so
`a\tb.c` (which contains whitespace, a tab) is not turned into a search
query. -/
theorem c6_normalize_cex :
    (specHasScheme "ftp://x.y" = true ∧ normalizeUrl "ftp://x.y" ≠ "ftp://x.y") ∧
    (specContainsWhitespace "a\tb.c" = true ∧
      startsWithL "https://www.google.com/search?q=".data (normalizeUrl "a\tb.c").data = false) := by
  decide

/-- C6, amended: trim; if the trimmed string starts with `http://` or
`https://` (only those two prefixes — other schemes are not recognized)
it is used as-is; else if it contains a space character (`' '` only, not
general whitespace) or no dot it becomes the percent-encoded Google
search URL; else it is prefixed with `https://`.  The three examples of
the claim hold. -/
theorem c6_normalize_amended :
    normalizeUrl "example.com" = "https://example.com" ∧
    normalizeUrl "openai gpt" = "https://www.google.com/search?q=openai%20gpt" ∧
    normalizeUrl "https://x.test" = "https://x.test" ∧
    (∀ s : String,
        (startsWithL "http://".data (jsTrimL s.data) ||
          startsWithL "https://".data (jsTrimL s.data)) = true →
        normalizeUrl s = jsTrim s) ∧
    (∀ s : String,
        (startsWithL "http://".data (jsTrimL s.data) ||
          startsWithL "https://".data (jsTrimL s.data)) = false →
        (containsCharL ' ' (jsTrimL s.data) ||
          !(containsCharL '.' (jsTrimL s.data))) = true →
        normalizeUrl s = ⟨googleQueryL (jsTrimL s.data)⟩) ∧
    (∀ s : String,
        (startsWithL "http://".data (jsTrimL s.data) ||
          startsWithL "https://".data (jsTrimL s.data)) = false →
        (containsCharL ' ' (jsTrimL s.data) ||
          !(containsCharL '.' (jsTrimL s.data))) = false →
        normalizeUrl s = ⟨"https://".data ++ jsTrimL s.data⟩) := by
  refine ⟨by decide, by decide, by decide, ?_, ?_, ?_⟩
  · intro s h
    simp [normalizeUrl, normalizeUrlL, jsTrim, h]
  · intro s h1 h2
    simp [normalizeUrl, normalizeUrlL, jsTrim, h1, h2]
  · intro s h1 h2
    simp [normalizeUrl, normalizeUrlL, jsTrim, h1, h2]

/-- C6, witness: one concrete input through each of the three branches. -/
theorem c6_normalize_amended_witness :
    normalizeUrl " http://a" = jsTrim " http://a" ∧
    normalizeUrl "hello world" = ⟨googleQueryL (jsTrimL "hello world".data)⟩ ∧
    normalizeUrl "x.org" = ⟨"https://".data ++ jsTrimL "x.org".data⟩ :=
  ⟨c6_normalize_amended.2.2.2.1 " http://a" (by decide),
   c6_normalize_amended.2.2.2.2.1 "hello world" (by decide) (by decide),
   c6_normalize_amended.2.2.2.2.2 "x.org" (by decide) (by decide)⟩

/-! ## Claim C7 — base-tag injection -/

/-- C7, counterexample.  A successful `navigate` whose content capture
fell back to the placeholder html emits a snapshot containing no base
tag at all: the injection replaces the first literal `<head>`, and the
fallback html has none — so "exactly one injected base tag" fails. -/
theorem c7_base_tag_cex :
    (handleNavigate 1 (some "https://example.com")
        (.success contentFallback "Untitled" "https://example.com/") sessionState1).2 =
      [Ev.loading true,
       Ev.pageContent contentFallback "https://example.com/" "Untitled",
       Ev.loading false] ∧
    countSub baseNeedle contentFallback.data = 0 := by
  decide

/-- GetSubstitution is the identity on a replacement string containing
no dollar character. -/
theorem expandRepl_eq_of_no_dollar (before matched after : List Char) :
    ∀ repl : List Char, repl.all (fun c => c.toNat != 36) = true →
      expandRepl before matched after repl = repl := by
  intro repl
  induction repl with
  | nil => intro _; rfl
  | cons c rest ih =>
    intro h
    have hc : (c.toNat != 36) = true ∧ rest.all (fun c => c.toNat != 36) = true := by
      simpa [List.all_cons] using h
    have hcc : (c.toNat == 36) = false := by
      have := hc.1
      simp [bne] at this
      simpa using this
    unfold expandRepl
    simp only [hcc]
    simp only [Bool.false_eq_true, if_false]
    rw [ih hc.2]

/-- C7, amended: the emitted html is the sanitized html with the
replacement string `<head><base href="finalUrl">` — after JS
GetSubstitution expansion of any `$$`/`$&`/dollar-backquote/`$'`
patterns the URL happens to contain — spliced in at the first
case-insensitive literal `<head>`; for a final URL containing no `$`
the injected href is exactly that URL; html without a literal `<head>`
(e.g. the content-capture fallback) is emitted with no injected base
tag. -/
theorem c7_base_tag_amended :
    (∀ (sid : Nat) (u h t finalUrl : String) (s : ServerState) (sess : Session),
        lookupKey sid s.sessions = some sess → u ≠ "" →
        (handleNavigate sid (some u) (.success h t finalUrl) s).2 =
          [Ev.loading true,
           Ev.pageContent (injectBase (sanitizeHTML h) finalUrl) finalUrl t,
           Ev.loading false]) ∧
    (∀ (html url : String), findCI "<head>".data html.data = none →
        injectBase html url = html) ∧
    (∀ (html url : String) (i : Nat), findCI "<head>".data html.data = some i →
        url.data.all (fun c => c.toNat != 36) = true →
        (injectBase html url).data =
          html.data.take i ++ baseTagFor url.data ++ html.data.drop (i + 6)) ∧
    countSub baseNeedle (injectBase "<html><head></head>x</html>" "https://f.example/").data = 1 ∧
    injectBase "<html><head></head>x</html>" "https://f.example/" =
      "<html><head><base href=\"https://f.example/\"></head>x</html>" ∧
    injectBase "x<head>y" "$&z" = "x<head><base href=\"<head>z\">y" := by
  refine ⟨?_, ?_, ?_, by decide, by decide, by decide⟩
  · intro sid u h t finalUrl s sess hs hu
    simp [handleNavigate, hs, hu, emitSnapshot]
  · intro html url hnone
    simp [injectBase, injectBaseL, hnone]
  · intro html url i hsome hnd
    have hrepl : (baseTagFor url.data).all (fun c => c.toNat != 36) = true := by
      simp only [baseTagFor, List.all_append, Bool.and_eq_true]
      exact ⟨⟨by decide, hnd⟩, by decide⟩
    have hexp := expandRepl_eq_of_no_dollar (html.data.take i)
      ((html.data.drop i).take 6) (html.data.drop (i + 6)) (baseTagFor url.data) hrepl
    simp [injectBase, injectBaseL, hsome, hexp]

/-- C7, witness: concrete inputs through the three conditional parts. -/
theorem c7_base_tag_amended_witness :
    (handleNavigate 1 (some "x.org") (.success "<p>x</p>" "T" "https://x.org/") sessionState1).2 =
      [Ev.loading true,
       Ev.pageContent (injectBase (sanitizeHTML "<p>x</p>") "https://x.org/") "https://x.org/" "T",
       Ev.loading false] ∧
    injectBase "<p>x</p>" "https://x.org/" = "<p>x</p>" ∧
    (injectBase "<html><head></head>" "u").data =
      "<html><head></head>".data.take 6 ++ baseTagFor "u".data ++
        "<html><head></head>".data.drop (6 + 6) :=
  ⟨c7_base_tag_amended.1 1 "x.org" "<p>x</p>" "T" "https://x.org/" sessionState1
      ⟨0, 0, false⟩ (by decide) (by decide),
   c7_base_tag_amended.2.1 "<p>x</p>" "https://x.org/" (by decide),
   c7_base_tag_amended.2.2.1 "<html><head></head>" "u" 6 (by decide) (by decide)⟩

/-! ## Claim C8 — navigation-failure classification -/

/-- C8: a failed `navigate` on an existing session emits exactly one
`NAVIGATION_ERROR` error event — with the timeout message when the
failure message contains `timeout`, else the network message when it
contains `net::ERR`, else the generic message — followed by
`loading:false`; an invalid-URL failure lands in the same catch block
with the generic message. -/
theorem c8_nav_error_classified :
    (∀ (m : String) (s : ServerState) (sid : Nat) (u : String) (sess : Session),
        lookupKey sid s.sessions = some sess → u ≠ "" →
        (handleNavigate sid (some u) (.failure m) s).2 =
          [Ev.loading true, Ev.errorEv (navErrorMessage m) "NAVIGATION_ERROR",
           Ev.loading false] ∧
        countErrorsWithCode "NAVIGATION_ERROR" (handleNavigate sid (some u) (.failure m) s).2 = 1) ∧
    (∀ m : String, hasSub "timeout".data m.data = true →
        navErrorMessage m = "Page load timeout - site may be slow or unavailable") ∧
    (∀ m : String, hasSub "timeout".data m.data = false →
        hasSub "net::ERR".data m.data = true →
        navErrorMessage m = "Network error - check your connection") ∧
    (∀ m : String, hasSub "timeout".data m.data = false →
        hasSub "net::ERR".data m.data = false →
        navErrorMessage m = "Failed to load page") ∧
    (∀ (s : ServerState) (sid : Nat) (sess : Session) (out : NavOutcome),
        lookupKey sid s.sessions = some sess →
        (handleNavigate sid none out s).2 =
          [Ev.errorEv "Failed to load page" "NAVIGATION_ERROR", Ev.loading false]) := by
  refine ⟨?_, ?_, ?_, ?_, ?_⟩
  · intro m s sid u sess hs hu
    have he : (handleNavigate sid (some u) (.failure m) s).2 =
        [Ev.loading true, Ev.errorEv (navErrorMessage m) "NAVIGATION_ERROR",
         Ev.loading false] := by
      simp [handleNavigate, hs, hu]
    refine ⟨he, ?_⟩
    rw [he]
    rfl
  · intro m h
    simp [navErrorMessage, h]
  · intro m h1 h2
    simp [navErrorMessage, h1, h2]
  · intro m h1 h2
    simp [navErrorMessage, h1, h2]
  · intro s sid sess out hs
    have hmsg : navErrorMessage "Invalid URL provided" = "Failed to load page" := by decide
    simp [handleNavigate, hs, hmsg]

/-- C8, witness: concrete failure messages of each class against the
concrete one-session state. -/
theorem c8_nav_error_classified_witness :
    (handleNavigate 1 (some "x.org") (.failure "net::ERR_FAILED") sessionState1).2 =
      [Ev.loading true,
       Ev.errorEv (navErrorMessage "net::ERR_FAILED") "NAVIGATION_ERROR",
       Ev.loading false] ∧
    navErrorMessage "Navigation timeout of 30000 ms exceeded" =
      "Page load timeout - site may be slow or unavailable" ∧
    navErrorMessage "net::ERR_FAILED" = "Network error - check your connection" ∧
    navErrorMessage "something else" = "Failed to load page" ∧
    (handleNavigate 1 none (.failure "m") sessionState1).2 =
      [Ev.errorEv "Failed to load page" "NAVIGATION_ERROR", Ev.loading false] :=
  ⟨(c8_nav_error_classified.1 "net::ERR_FAILED" sessionState1 1 "x.org" ⟨0, 0, false⟩
      (by decide) (by decide)).1,
   c8_nav_error_classified.2.1 _ (by decide),
   c8_nav_error_classified.2.2.1 _ (by decide) (by decide),
   c8_nav_error_classified.2.2.2.1 _ (by decide) (by decide),
   c8_nav_error_classified.2.2.2.2 sessionState1 1 ⟨0, 0, false⟩ (.failure "m") (by decide)⟩

/-! ## Claim C9 — idempotent session cleanup -/

theorem cleanupSession_no_session {sid : Nat} {s : ServerState}
    (h : lookupKey sid s.sessions = none) : cleanupSession sid s = s := by
  simp [cleanupSession, h]

/-- C9: `cleanupSession` run twice equals it run once (the second call
finds no entry and is a no-op, so nothing is released twice); after the
first call the registry no longer holds the id; one call detaches at
most one client and closes at most one page.  The function is total — in
the source every detach/close failure is swallowed by `.catch` and the
surrounding `try`, so no failure propagates and the model needs no
failure branch. -/
theorem c9_cleanup_idempotent :
    ∀ (s : ServerState) (sid : Nat),
      cleanupSession sid (cleanupSession sid s) = cleanupSession sid s ∧
      lookupKey sid (cleanupSession sid s).sessions = none ∧
      (cleanupSession sid s).detachLog.length ≤ s.detachLog.length + 1 ∧
      (cleanupSession sid s).closeLog.length ≤ s.closeLog.length + 1 := by
  intro s sid
  cases hs : lookupKey sid s.sessions with
  | none =>
    have he : cleanupSession sid s = s := cleanupSession_no_session hs
    rw [he]
    exact ⟨he, hs, by omega, by omega⟩
  | some sess =>
    have h2 : (cleanupSession sid s).sessions = eraseKey sid s.sessions := by
      simp [cleanupSession, hs]
    have h3 : lookupKey sid (cleanupSession sid s).sessions = none := by
      rw [h2]; exact lookupKey_eraseKey_self sid s.sessions
    refine ⟨cleanupSession_no_session h3, h3, ?_, ?_⟩
    · have : (cleanupSession sid s).detachLog = sess.clientId :: s.detachLog := by
        simp [cleanupSession, hs]
      simp [this]
    · have : (cleanupSession sid s).closeLog =
          if sess.pageClosed then s.closeLog else sess.pageId :: s.closeLog := by
        simp [cleanupSession, hs]
      rw [this]
      by_cases hp : sess.pageClosed <;> simp [hp]

/-! ## Claim C10 — commands without a session are silent -/

/-- C10: with no registered session, `browser-action`, `click`, `scroll`
and `input` return without emitting anything and without touching the
state, while `navigate` alone emits a `NO_SESSION` error (also without
touching the state). -/
theorem c10_no_session_silent :
    ∀ (s : ServerState) (sid : Nat), lookupKey sid s.sessions = none →
      (∀ (action : String) (out : BAOutcome), handleBrowserAction sid action out s = (s, [])) ∧
      (∀ out : ClickOutcome, handleClick sid out s = (s, [])) ∧
      handleScroll sid s = (s, []) ∧
      handleInput sid s = (s, []) ∧
      (∀ (url : Option String) (out : NavOutcome),
          handleNavigate sid url out s = (s, [Ev.errorEv "No active session" "NO_SESSION"])) := by
  intro s sid h
  refine ⟨?_, ?_, ?_, ?_, ?_⟩
  · intro action out
    simp [handleBrowserAction, h]
  · intro out
    simp [handleClick, h]
  · simp [handleScroll, h]
  · simp [handleInput, h]
  · intro url out
    simp [handleNavigate, h]

/-- C10, witness: the empty state has no session for socket 0. -/
theorem c10_no_session_silent_witness :
    handleScroll 0 initState = (initState, []) ∧
    handleInput 0 initState = (initState, []) ∧
    handleNavigate 0 (some "https://x.test") (.failure "m") initState =
      (initState, [Ev.errorEv "No active session" "NO_SESSION"]) :=
  ⟨(c10_no_session_silent initState 0 rfl).2.2.1,
   (c10_no_session_silent initState 0 rfl).2.2.2.1,
   (c10_no_session_silent initState 0 rfl).2.2.2.2 (some "https://x.test") (.failure "m")⟩

/-! ## Claim C2 — browser pool after a disconnect -/

/-- C2, counterexample.  After the disconnect notification the handle is
indeed `none` and the restart guard coalesces the restart to one — but
`getBrowser` itself has no guard: three concurrent `acquire()` calls
that each run their null-check before any launch resolves (the schedule
the event loop produces when they arrive together) perform three
launches, not one. -/
theorem c2_concurrent_acquire_cex :
    poolAfterCrash.browser = none ∧
    (racedAcquires poolAfterCrash).launches = 3 ∧
    (racedAcquires poolAfterCrash).restartRuns = 1 := by
  decide

/-- C2, amended: on disconnect the pool's handle becomes null and
concurrent `restartBrowser` triggers are coalesced to exactly one by the
boolean guard; but concurrent `acquire()` (`getBrowser`) calls are not
guarded — every call that observes the missing handle before a launch
completes starts its own launch, so three concurrent acquires right
after the disconnect perform three launches (while only one restart body
runs). -/
theorem c2_pool_amended :
    (∀ p : Pool, (onDisconnected p).1.browser = none) ∧
    (∀ p : Pool, p.restartInProgress = true → rbEnter p = (p, false)) ∧
    (∀ p : Pool, p.browser = none → (gbCheck p).2 = true) ∧
    (racedAcquires poolAfterCrash).launches = 3 ∧
    (racedAcquires poolAfterCrash).restartRuns = 1 := by
  refine ⟨?_, ?_, ?_, by decide, by decide⟩
  · intro p
    by_cases h : p.restartInProgress <;> simp [onDisconnected, rbEnter, h]
  · intro p h
    simp [rbEnter, h]
  · intro p h
    simp [gbCheck, h]

/-- C2, witness: the guard and the unguarded check at concrete states. -/
theorem c2_pool_amended_witness :
    (onDisconnected healthyPool).1.browser = none ∧
    rbEnter poolAfterCrash = (poolAfterCrash, false) ∧
    (gbCheck poolAfterCrash).2 = true :=
  ⟨c2_pool_amended.1 healthyPool,
   c2_pool_amended.2.1 poolAfterCrash (by decide),
   c2_pool_amended.2.2.1 poolAfterCrash (by decide)⟩

/-! ## Claim C3 — session capacity -/

/-- C3, counterexample.  The capacity check runs only in the connection
gate, before any session exists for the socket: 51 sockets that connect
while the registry is still empty all pass it, and their 51 subsequent
`init` commands (which perform no capacity check) drive the registry to
51 > 50 entries — the claimed reachable-state bound fails. -/
theorem c3_capacity_cex :
    (runCmds overCapacityTrace initState).sessions.length = 51 ∧
    MAX_SESSIONS < (runCmds overCapacityTrace initState).sessions.length := by
  constructor <;> decide

/-- C3, amended: a connection attempted while the registry holds at
least 50 sessions is rejected with `MAX_SESSIONS_REACHED`, the state —
and so the number of pages ever created — unchanged; but capacity is
enforced only at connection time, so sockets admitted earlier can still
`init` and push the registry past 50 (51 is reachable). -/
theorem c3_capacity_amended :
    (∀ (s : ServerState) (sid : Nat), s.sessions.length ≥ MAX_SESSIONS →
        onConnection sid s =
          (s, [Ev.errorEv "Server at capacity. Please try again later."
                 "MAX_SESSIONS_REACHED"])) ∧
    (runCmds overCapacityTrace initState).sessions.length = 51 := by
  refine ⟨?_, by decide⟩
  intro s sid h
  simp [onConnection, h]

/-- C3, witness: the rejection at a concrete state holding exactly 50
sessions. -/
theorem c3_capacity_amended_witness :
    fullState.sessions.length ≥ MAX_SESSIONS ∧
    onConnection 99 fullState =
      (fullState, [Ev.errorEv "Server at capacity. Please try again later."
                     "MAX_SESSIONS_REACHED"]) :=
  ⟨by decide, c3_capacity_amended.1 fullState 99 (by decide)⟩

/-! ## Claim C4 — eviction-timer discipline -/

/-- C4, counterexample.  In the state where socket 7 has just initialized
(its armed timer carries token 0), an `input` command replaces the timer
with the fresh token 1 — the `input` handler calls
`resetSessionTimeout` (line 515), so "the input handler does not reset
the timer" is false. -/
theorem c4_input_resets_timer_cex :
    lookupKey 7 (runCmds [Cmd.connection 7, Cmd.init 7] initState).timers = some 0 ∧
    lookupKey 7 (runCmds [Cmd.connection 7, Cmd.init 7, Cmd.input 7] initState).timers = some 1 ∧
    armedFor 7 (runCmds [Cmd.connection 7, Cmd.init 7, Cmd.input 7] initState) = 1 := by
  decide

/-- C4, amended: in every reachable state each session has at most one
armed eviction timer, and every accepted command handler except exactly
the one fire-and-forget command `scroll` rearms the timer with a fresh
one, cancelling any prior timer first (the keep-alive `ping` does too);
in particular the `input` handler does rearm it. -/
theorem c4_timer_invariant_and_rearm :
    (∀ (cmds : List Cmd) (sid : Nat), armedFor sid (runCmds cmds initState) ≤ 1) ∧
    (∀ (s : ServerState) (sid : Nat) (sess : Session),
        lookupKey sid s.sessions = some sess →
        lookupKey sid (handleInput sid s).1.timers = some s.nextTimer ∧
        handleScroll sid s = (s, []) ∧
        (∀ (url : Option String) (out : NavOutcome),
            lookupKey sid (handleNavigate sid url out s).1.timers = some s.nextTimer) ∧
        (∀ (action : String) (out : BAOutcome),
            lookupKey sid (handleBrowserAction sid action out s).1.timers = some s.nextTimer) ∧
        (∀ out : ClickOutcome,
            lookupKey sid (handleClick sid out s).1.timers = some s.nextTimer) ∧
        lookupKey sid (handlePing sid s).1.timers = some s.nextTimer) := by
  constructor
  · intro cmds sid
    exact armedFor_le_one (runPreserves cmds initState TInv_initState) sid
  · intro s sid sess hs
    have hr : lookupKey sid (resetSessionTimeout sid s).timers = some s.nextTimer := by
      simp [resetSessionTimeout, lookupKey]
    refine ⟨?_, ?_, ?_, ?_, ?_, ?_⟩
    · simpa [handleInput, hs] using hr
    · simp [handleScroll, hs]
    · intro url out
      cases url with
      | none => simpa [handleNavigate, hs] using hr
      | some u =>
        by_cases hu : u = ""
        · simpa [handleNavigate, hs, hu] using hr
        · cases out with
          | success a b c => simpa [handleNavigate, hs, hu] using hr
          | failure m => simpa [handleNavigate, hs, hu] using hr
    · intro action out
      by_cases hv : validAction action
      · cases out with
        | success a b c => simpa [handleBrowserAction, hs, hv] using hr
        | failure => simpa [handleBrowserAction, hs, hv] using hr
      · simpa [handleBrowserAction, hs, hv] using hr
    · intro out
      cases out with
      | success a b c => simpa [handleClick, hs] using hr
      | failure => simpa [handleClick, hs] using hr
    · simpa [handlePing] using hr

/-- C4, witness: the invariant along a concrete trace, and the rearm
facts at the concrete one-session state. -/
theorem c4_timer_invariant_and_rearm_witness :
    armedFor 7 (runCmds [Cmd.connection 7, Cmd.init 7, Cmd.ping 7] initState) ≤ 1 ∧
    lookupKey 1 (handleInput 1 sessionState1).1.timers = some sessionState1.nextTimer ∧
    handleScroll 1 sessionState1 = (sessionState1, []) :=
  ⟨c4_timer_invariant_and_rearm.1 [Cmd.connection 7, Cmd.init 7, Cmd.ping 7] 7,
   (c4_timer_invariant_and_rearm.2 sessionState1 1 ⟨0, 0, false⟩ (by decide)).1,
   (c4_timer_invariant_and_rearm.2 sessionState1 1 ⟨0, 0, false⟩ (by decide)).2.1⟩

end Phantom
